import Mathlib

/-!
Verification of the Speech-Pathology-App data layer.

Shallow embedding of:
- the Domain Model (the entity interfaces and string unions of
  `src/types/index.ts`),
- the Aggregator (`calculateSessionStats` and the goal-accuracy update,
  from `src/utils/helpers.ts` and `src/screens/NewSessionScreen.tsx`),
- the Record Store (`src/services/storage.ts`): per-collection save/delete,
  the client cascade delete, export/import of the whole store,
- the State Facade (`src/context/AppContext.tsx`): in-memory mirror plus
  store-backed mutation methods,
- the session-recording flow of `NewSessionScreen.tsx` as an event-step
  state machine.

Conventions of the embedding:
- JavaScript numbers are modelled as exact arithmetic (`Nat`, `Int`, `Rat`);
  all quantities involved stay far below any floating-point precision limit.
- `Math.round` on a nonnegative value rounds half up, i.e. `⌊q + 1/2⌋`.
- Asynchronous storage writes are modelled with an explicit success flag
  (`ok : Bool`) per underlying `AsyncStorage.setItem` call: the write either
  applies and reports `true`, or leaves the persisted value unchanged and
  reports `false` (the `try/catch` in `setItem` converts an exception into a
  `false` return, so nothing ever throws to the caller).
- Timestamps (`new Date().toISOString()`) are passed in as explicit `now`
  arguments; generated ids likewise.
-/

namespace SpeechApp

/-- The `Trial.response` string union of `src/types/index.ts`
(`correct | incorrect | approximation | no_response`). -/
inductive Response where
  | correct
  | incorrect
  | approximation
  | no_response
deriving DecidableEq, Repr

/-- The `CueLevel` string union of `src/types/index.ts`. -/
inductive CueLevel where
  | independent
  | verbal_cue
  | visual_cue
  | model
  | partial_physical
  | full_physical
deriving DecidableEq, Repr

/-- The `Goal.status` string union of `src/types/index.ts`
(`active | achieved | discontinued`). -/
inductive GoalStatus where
  | active
  | achieved
  | discontinued
deriving DecidableEq, Repr

/-- The `GoalCategory` string union of `src/types/index.ts`. -/
inductive GoalCategory where
  | articulation
  | language
  | fluency
  | voice
  | pragmatics
  | phonology
  | other
deriving DecidableEq, Repr

/-- The `AppSettings.theme` string union of `src/types/index.ts`
(`light | dark | system`). -/
inductive Theme where
  | light
  | dark
  | system
deriving DecidableEq, Repr

/-- The `Trial` interface of `src/types/index.ts`; optional string fields
become `Option String`. -/
structure Trial where
  id : String
  sessionId : String
  goalId : String
  prompt : String
  response : Response
  cueLevel : CueLevel
  notes : Option String := none
  timestamp : String
deriving DecidableEq, Repr

/-- The `SessionStats` interface of `src/types/index.ts`; the count fields
(always list lengths) as `Nat`, the accuracy (a rounded percentage) as
`Int`. -/
structure SessionStats where
  totalTrials : Nat
  correctTrials : Nat
  incorrectTrials : Nat
  approximationTrials : Nat
  noResponseTrials : Nat
  accuracy : Int
deriving DecidableEq, Repr

/-- The `Client` interface of `src/types/index.ts`. -/
structure Client where
  id : String
  firstName : String
  lastName : String
  dateOfBirth : String
  diagnosis : Option String := none
  notes : Option String := none
  createdAt : String
  updatedAt : String
  isActive : Bool
deriving DecidableEq, Repr

/-- The `Goal` interface of `src/types/index.ts` (including the optional
`targetDate` field, which the data layer stores but never computes with). -/
structure Goal where
  id : String
  clientId : String
  name : String
  description : String
  targetAccuracy : Int
  currentAccuracy : Int
  targetDate : Option String := none
  status : GoalStatus
  category : GoalCategory
  createdAt : String
  updatedAt : String
deriving DecidableEq, Repr

/-- The `Session` interface of `src/types/index.ts`. -/
structure Session where
  id : String
  clientId : String
  date : String
  duration : Nat
  notes : Option String := none
  goals : List String
  trials : List Trial
  createdAt : String
deriving DecidableEq, Repr

/-- The `AppSettings` interface of `src/types/index.ts`. -/
structure AppSettings where
  defaultSessionDuration : Nat
  defaultTargetAccuracy : Int
  enableNotifications : Bool
  theme : Theme
  cueLevels : List CueLevel
  responseOptions : List Response
deriving DecidableEq, Repr

/-- JavaScript `Math.round` on a nonnegative rational: round half up,
`⌊q + 1/2⌋`. (All uses in this code base are on nonnegative values, where
`Math.round x = ⌊x + 1/2⌋` exactly.) -/
def jsRound (q : ℚ) : ℤ := ⌊q + 1/2⌋

/-- `calculateSessionStats` from `src/utils/helpers.ts`: counts of each
response kind over a trial list, and `accuracy = Math.round
((correct / total) * 100)` when `total > 0`, else `0`. -/
def calculateSessionStats (trials : List Trial) : SessionStats :=
  let totalTrials := trials.length
  let correctTrials := (trials.filter (fun t => t.response = Response.correct)).length
  let incorrectTrials := (trials.filter (fun t => t.response = Response.incorrect)).length
  let approximationTrials := (trials.filter (fun t => t.response = Response.approximation)).length
  let noResponseTrials := (trials.filter (fun t => t.response = Response.no_response)).length
  let accuracy : ℤ :=
    if totalTrials > 0 then jsRound (((correctTrials : ℚ) / (totalTrials : ℚ)) * 100) else 0
  { totalTrials, correctTrials, incorrectTrials, approximationTrials, noResponseTrials, accuracy }

/-! ## Record Store (`src/services/storage.ts`)

The four collections live under four independent keys; each is read and
written wholesale.  `StoreState` is the persisted contents (an absent key and
an empty collection are observationally identical through `getAll`, which
returns `[]` for an absent key; `SettingsStorage.get` substitutes the default
settings, so `settings` holds the effective value). -/

structure StoreState where
  clients : List Client
  goals : List Goal
  sessions : List Session
  settings : AppSettings
deriving DecidableEq, Repr

/-- One `setItem(CLIENTS, v)` call: on success the document is replaced and
`true` returned; on an underlying write failure the document is unchanged and
the caught error becomes a `false` return. -/
def setItemClients (ok : Bool) (v : List Client) (st : StoreState) : Bool × StoreState :=
  if ok then (true, { st with clients := v }) else (false, st)

/-- One `setItem(GOALS, v)` call. -/
def setItemGoals (ok : Bool) (v : List Goal) (st : StoreState) : Bool × StoreState :=
  if ok then (true, { st with goals := v }) else (false, st)

/-- One `setItem(SESSIONS, v)` call. -/
def setItemSessions (ok : Bool) (v : List Session) (st : StoreState) : Bool × StoreState :=
  if ok then (true, { st with sessions := v }) else (false, st)

/-- One `setItem(SETTINGS, v)` call. -/
def setItemSettings (ok : Bool) (v : AppSettings) (st : StoreState) : Bool × StoreState :=
  if ok then (true, { st with settings := v }) else (false, st)

/-- The `findIndex`-replace-else-`push` pattern shared by the three `save`
operations: replace the first element whose key equals `key e` in place with
`repl`, else append `e` at the end. -/
def saveByKey {α : Type} (key : α → String) (e repl : α) : List α → List α
  | [] => [e]
  | x :: xs => if key x = key e then repl :: xs else x :: saveByKey key e repl xs

/-- The list transformation inside `ClientStorage.save`: `findIndex` on the
entity's id, then replace the first match in place with the entity carrying a
freshly stamped `updatedAt`, else `push` the entity as passed. -/
def saveClientList (c : Client) (now : String) (l : List Client) : List Client :=
  saveByKey Client.id c { c with updatedAt := now } l

/-- The list transformation inside `GoalStorage.save` (same shape as for
clients, `updatedAt` stamped on replacement). -/
def saveGoalList (g : Goal) (now : String) (l : List Goal) : List Goal :=
  saveByKey Goal.id g { g with updatedAt := now } l

/-- The list transformation inside `SessionStorage.save`: replace the first
id match in place (no `updatedAt` stamping for sessions), else `push`. -/
def saveSessionList (s : Session) (l : List Session) : List Session :=
  saveByKey Session.id s s l

/-- `ClientStorage.save`. -/
def clientSave (c : Client) (now : String) (ok : Bool) (st : StoreState) : Bool × StoreState :=
  setItemClients ok (saveClientList c now st.clients) st

/-- `GoalStorage.save`. -/
def goalSave (g : Goal) (now : String) (ok : Bool) (st : StoreState) : Bool × StoreState :=
  setItemGoals ok (saveGoalList g now st.goals) st

/-- `SessionStorage.save`. -/
def sessionSave (s : Session) (ok : Bool) (st : StoreState) : Bool × StoreState :=
  setItemSessions ok (saveSessionList s st.sessions) st

/-- `GoalStorage.delete`. -/
def goalDelete (id : String) (ok : Bool) (st : StoreState) : Bool × StoreState :=
  setItemGoals ok (st.goals.filter (fun g => ¬ g.id = id)) st

/-- `SessionStorage.delete`. -/
def sessionDelete (id : String) (ok : Bool) (st : StoreState) : Bool × StoreState :=
  setItemSessions ok (st.sessions.filter (fun s => ¬ s.id = id)) st

/-- `GoalStorage.deleteByClientId`. -/
def goalDeleteByClientId (clientId : String) (ok : Bool) (st : StoreState) :
    Bool × StoreState :=
  setItemGoals ok (st.goals.filter (fun g => ¬ g.clientId = clientId)) st

/-- `SessionStorage.deleteByClientId`. -/
def sessionDeleteByClientId (clientId : String) (ok : Bool) (st : StoreState) :
    Bool × StoreState :=
  setItemSessions ok (st.sessions.filter (fun s => ¬ s.clientId = clientId)) st

/-- `ClientStorage.delete`: read the client list, filter out the id, run the
two cascades (their returned flags are discarded by the source), then write
the filtered client list; the returned flag is that of the final clients
write alone.  `okG`, `okS`, `okC` are the success flags of the three
underlying writes in call order. -/
def clientDelete (id : String) (okG okS okC : Bool) (st : StoreState) : Bool × StoreState :=
  let filtered := st.clients.filter (fun c => ¬ c.id = id)
  let st1 := (goalDeleteByClientId id okG st).2
  let st2 := (sessionDeleteByClientId id okS st1).2
  setItemClients okC filtered st2

/-- `SettingsStorage.save`. -/
def settingsSave (s : AppSettings) (ok : Bool) (st : StoreState) : Bool × StoreState :=
  setItemSettings ok s st

/-- The backup document built by `exportAllData` / consumed by `importData`:
a JSON object with an `exportDate` and the four collection keys.  A field is
`none` when the key is absent from the document (or carries a JavaScript-falsy
value, which the `if (data.x)` guards in `importData` treat the same way). -/
structure BackupDoc where
  exportDate : String
  clients : Option (List Client) := none
  goals : Option (List Goal) := none
  sessions : Option (List Session) := none
  settings : Option AppSettings := none
deriving DecidableEq, Repr

/-- `exportAllData`: bundle all four collections plus an export timestamp. -/
def exportAllData (now : String) (st : StoreState) : BackupDoc :=
  { exportDate := now
    clients := some st.clients
    goals := some st.goals
    sessions := some st.sessions
    settings := some st.settings }

/-- `importData`: `doc = none` models a string that fails `JSON.parse`, in
which case the catch block returns `false` and nothing is written.  Otherwise
each of the four keys present in the document overwrites its collection
wholesale (in source order: clients, goals, sessions, settings) and the
function returns `true` — the flags of the four writes are discarded by the
source. -/
def importData (doc : Option BackupDoc) (okC okG okS okSet : Bool) (st : StoreState) :
    Bool × StoreState :=
  match doc with
  | none => (false, st)
  | some d =>
    let st1 := match d.clients with
      | some v => (setItemClients okC v st).2
      | none => st
    let st2 := match d.goals with
      | some v => (setItemGoals okG v st1).2
      | none => st1
    let st3 := match d.sessions with
      | some v => (setItemSessions okS v st2).2
      | none => st2
    let st4 := match d.settings with
      | some v => (setItemSettings okSet v st3).2
      | none => st3
    (true, st4)

/-! ## Goal-accuracy update on session completion
(`calculateAndUpdateGoalAccuracy` in `src/screens/NewSessionScreen.tsx`, and
`GoalStorage.updateAccuracy` in `storage.ts`). -/

/-- The updated goal record that `calculateAndUpdateGoalAccuracy` passes to
`updateGoal`: filter this session's trials down to the goal, compute the
session stats, average the stored accuracy with the session accuracy
(`Math.round((goal.currentAccuracy + stats.accuracy) / 2)`), and set status
to achieved exactly when the new accuracy reaches the target. -/
def calculateAndUpdateGoalAccuracy (goal : Goal) (trials : List Trial) (now : String) : Goal :=
  let goalTrials := trials.filter (fun t => t.goalId = goal.id)
  let stats := calculateSessionStats goalTrials
  let newAccuracy := jsRound (((goal.currentAccuracy : ℚ) + (stats.accuracy : ℚ)) / 2)
  { goal with
      currentAccuracy := newAccuracy
      status := if newAccuracy ≥ goal.targetAccuracy then GoalStatus.achieved else goal.status
      updatedAt := now }

/-- `GoalStorage.updateAccuracy`: look the goal up by id (returning `false`
when absent), overwrite `currentAccuracy`, set status to achieved when the
accuracy reaches the target, and save. -/
def goalUpdateAccuracy (id : String) (accuracy : Int) (now : String) (ok : Bool)
    (st : StoreState) : Bool × StoreState :=
  match st.goals.find? (fun g => g.id = id) with
  | none => (false, st)
  | some g =>
    goalSave
      { g with
          currentAccuracy := accuracy
          status := if accuracy ≥ g.targetAccuracy then GoalStatus.achieved else g.status }
      now ok st

/-! ## State Facade (`src/context/AppContext.tsx`)

`AppState` pairs the persisted store with the provider's in-memory mirror
(the `clients` / `goals` / `sessions` / `settings` React state).  Each
mutation method calls the store operation and, exactly when it reported
success, applies the mirror transformation written in the source. -/

structure AppState where
  store : StoreState
  mirror : StoreState
deriving DecidableEq, Repr

/-- `addClient` in `AppProvider`. -/
def addClient (c : Client) (now : String) (ok : Bool) (s : AppState) : Bool × AppState :=
  let r := clientSave c now ok s.store
  (r.1, { store := r.2
          mirror := if r.1 then { s.mirror with clients := s.mirror.clients ++ [c] }
                    else s.mirror })

/-- `updateClient` in `AppProvider`. -/
def updateClient (c : Client) (now : String) (ok : Bool) (s : AppState) : Bool × AppState :=
  let r := clientSave c now ok s.store
  (r.1, { store := r.2
          mirror := if r.1 then
              { s.mirror with
                  clients := s.mirror.clients.map (fun x => if x.id = c.id then c else x) }
            else s.mirror })

/-- `deleteClient` in `AppProvider`. -/
def deleteClient (id : String) (okG okS okC : Bool) (s : AppState) : Bool × AppState :=
  let r := clientDelete id okG okS okC s.store
  (r.1, { store := r.2
          mirror := if r.1 then
              { s.mirror with
                  clients := s.mirror.clients.filter (fun c => ¬ c.id = id)
                  goals := s.mirror.goals.filter (fun g => ¬ g.clientId = id)
                  sessions := s.mirror.sessions.filter (fun x => ¬ x.clientId = id) }
            else s.mirror })

/-- `addGoal` in `AppProvider`. -/
def addGoal (g : Goal) (now : String) (ok : Bool) (s : AppState) : Bool × AppState :=
  let r := goalSave g now ok s.store
  (r.1, { store := r.2
          mirror := if r.1 then { s.mirror with goals := s.mirror.goals ++ [g] }
                    else s.mirror })

/-- `updateGoal` in `AppProvider`. -/
def updateGoal (g : Goal) (now : String) (ok : Bool) (s : AppState) : Bool × AppState :=
  let r := goalSave g now ok s.store
  (r.1, { store := r.2
          mirror := if r.1 then
              { s.mirror with
                  goals := s.mirror.goals.map (fun x => if x.id = g.id then g else x) }
            else s.mirror })

/-- `deleteGoal` in `AppProvider`. -/
def deleteGoal (id : String) (ok : Bool) (s : AppState) : Bool × AppState :=
  let r := goalDelete id ok s.store
  (r.1, { store := r.2
          mirror := if r.1 then
              { s.mirror with goals := s.mirror.goals.filter (fun g => ¬ g.id = id) }
            else s.mirror })

/-- `addSession` in `AppProvider`. -/
def addSession (x : Session) (ok : Bool) (s : AppState) : Bool × AppState :=
  let r := sessionSave x ok s.store
  (r.1, { store := r.2
          mirror := if r.1 then { s.mirror with sessions := s.mirror.sessions ++ [x] }
                    else s.mirror })

/-- `updateSession` in `AppProvider`. -/
def updateSession (x : Session) (ok : Bool) (s : AppState) : Bool × AppState :=
  let r := sessionSave x ok s.store
  (r.1, { store := r.2
          mirror := if r.1 then
              { s.mirror with
                  sessions := s.mirror.sessions.map (fun y => if y.id = x.id then x else y) }
            else s.mirror })

/-- `deleteSession` in `AppProvider`. -/
def deleteSession (id : String) (ok : Bool) (s : AppState) : Bool × AppState :=
  let r := sessionDelete id ok s.store
  (r.1, { store := r.2
          mirror := if r.1 then
              { s.mirror with sessions := s.mirror.sessions.filter (fun x => ¬ x.id = id) }
            else s.mirror })

/-- `updateSettings` in `AppProvider`. -/
def updateSettings (v : AppSettings) (ok : Bool) (s : AppState) : Bool × AppState :=
  let r := settingsSave v ok s.store
  (r.1, { store := r.2
          mirror := if r.1 then { s.mirror with settings := v } else s.mirror })

/-! ## Session-recording flow (`src/screens/NewSessionScreen.tsx`)

The screen's local React state and its handlers, as an event-step machine.
Guards that the source enforces by rendering (the goal-selection toggles only
exist on the pre-start selection screen; the trial-recording and navigation
controls only exist on the in-session screen reached by `handleStartSession`)
are made explicit as `sessionStarted` tests in the corresponding steps. -/

/-- ASCII whitespace, for the `trim` model. -/
def isWhitespaceChar (c : Char) : Bool :=
  c = ' ' ∨ c = '\t' ∨ c = '\n' ∨ c = '\r'

/-- Drop leading whitespace characters. -/
def dropLeadingWs : List Char → List Char
  | [] => []
  | c :: cs => if isWhitespaceChar c then dropLeadingWs cs else c :: cs

/-- JavaScript `String.prototype.trim` (restricted to ASCII whitespace, which
covers every string this code base produces): drop leading and trailing
whitespace. -/
def jsTrim (s : String) : String :=
  String.mk (dropLeadingWs (dropLeadingWs s.data.reverse).reverse)

structure RecState where
  selectedGoalIds : List String
  currentGoalIndex : Nat
  trials : List Trial
  sessionStarted : Bool
deriving DecidableEq, Repr

/-- The screen's initial state: selection from the route's `goalIds` param
(or empty), index 0, no trials, session not started. -/
def recInit (initialGoalIds : List String) : RecState :=
  { selectedGoalIds := initialGoalIds
    currentGoalIndex := 0
    trials := []
    sessionStarted := false }

/-- UI events of the recording flow.  `record` carries the goals mirror
(`getGoal` reads it), the prompt text, cue level, response, and the generated
trial id and timestamp. -/
inductive RecEvent where
  | toggle (goalId : String)
  | start
  | record (env : List Goal) (promptText : String) (cue : CueLevel) (resp : Response)
      (tid ts : String)
  | deleteLast (env : List Goal)
  | nextGoal
  | prevGoal
deriving Repr

/-- `currentGoal`: `getGoal(selectedGoalIds[currentGoalIndex])`, i.e. the
first goal in the mirror whose id is the selected id at the current index. -/
def currentGoal (env : List Goal) (s : RecState) : Option Goal :=
  match s.selectedGoalIds.get? s.currentGoalIndex with
  | none => none
  | some gid => env.find? (fun g => g.id = gid)

/-- One step of the recording flow. -/
def recStep (s : RecState) : RecEvent → RecState
  | RecEvent.toggle goalId =>
    if s.sessionStarted then s
    else
      { s with
          selectedGoalIds :=
            if goalId ∈ s.selectedGoalIds then
              s.selectedGoalIds.filter (fun id => ¬ id = goalId)
            else s.selectedGoalIds ++ [goalId] }
  | RecEvent.start =>
    if s.selectedGoalIds.isEmpty then s else { s with sessionStarted := true }
  | RecEvent.record env promptText cue resp tid ts =>
    if ¬ s.sessionStarted then s
    else
      match currentGoal env s with
      | none => s
      | some g =>
        let currentGoalTrials := s.trials.filter (fun t => t.goalId = g.id)
        let newTrial : Trial :=
          { id := tid
            sessionId := ""
            goalId := g.id
            prompt :=
              if jsTrim promptText = "" then
                "Trial " ++ toString (currentGoalTrials.length + 1)
              else jsTrim promptText
            response := resp
            cueLevel := cue
            timestamp := ts }
        { s with trials := s.trials ++ [newTrial] }
  | RecEvent.deleteLast env =>
    if ¬ s.sessionStarted then s
    else
      match currentGoal env s with
      | none => s
      | some g =>
        match (s.trials.filter (fun t => t.goalId = g.id)).getLast? with
        | none => s
        | some lastTrial => { s with trials := s.trials.filter (fun t => ¬ t.id = lastTrial.id) }
  | RecEvent.nextGoal =>
    if s.currentGoalIndex < s.selectedGoalIds.length - 1 then
      { s with currentGoalIndex := s.currentGoalIndex + 1 }
    else s
  | RecEvent.prevGoal =>
    if 0 < s.currentGoalIndex then { s with currentGoalIndex := s.currentGoalIndex - 1 }
    else s

/-- Run a sequence of UI events from an initial state. -/
def recRun (init : RecState) (events : List RecEvent) : RecState :=
  events.foldl recStep init

/-- `handleEndSession`: with no trials the session is discarded (no save);
otherwise the session is built with the selected goal ids as its goals set
and every trial's placeholder `sessionId` rewritten to the generated session
id. -/
def handleEndSession (s : RecState) (sid clientId date sessionNotes : String) :
    Option Session :=
  if s.trials.isEmpty then none
  else
    some
      { id := sid
        clientId := clientId
        date := date
        duration := 30
        notes := if jsTrim sessionNotes = "" then none else some (jsTrim sessionNotes)
        goals := s.selectedGoalIds
        trials := s.trials.map (fun t => { t with sessionId := sid })
        createdAt := date }

/-! ## Concrete fixtures used by witnesses and counterexamples -/

/-- `DEFAULT_SETTINGS` from `storage.ts`. -/
def DEFAULT_SETTINGS : AppSettings :=
  { defaultSessionDuration := 30
    defaultTargetAccuracy := 80
    enableNotifications := true
    theme := Theme.system
    cueLevels := [CueLevel.independent, CueLevel.verbal_cue, CueLevel.visual_cue,
      CueLevel.model, CueLevel.partial_physical, CueLevel.full_physical]
    responseOptions := [Response.correct, Response.incorrect, Response.approximation,
      Response.no_response] }

/-- A trial with the given response (fixture). -/
def exampleTrial (resp : Response) (n : String) : Trial :=
  { id := n
    sessionId := "s1"
    goalId := "g1"
    prompt := "p"
    response := resp
    cueLevel := CueLevel.independent
    timestamp := "t" }

/-- Responses `[correct, correct, incorrect]` (example scenario of spec §8). -/
def exampleTrials : List Trial :=
  [exampleTrial Response.correct "1", exampleTrial Response.correct "2",
   exampleTrial Response.incorrect "3"]

/-- A client fixture with the given id. -/
def exClient (i : String) : Client :=
  { id := i
    firstName := "A"
    lastName := "B"
    dateOfBirth := "2000-01-01"
    isActive := true
    createdAt := "t0"
    updatedAt := "t0" }

/-- A goal fixture with the given id, owner, status and accuracies. -/
def exGoal (i cid : String) (st : GoalStatus) (target cur : Int) : Goal :=
  { id := i
    clientId := cid
    name := "n"
    description := "d"
    category := GoalCategory.articulation
    targetAccuracy := target
    currentAccuracy := cur
    status := st
    createdAt := "t0"
    updatedAt := "t0" }

/-- A session fixture with the given id and owner. -/
def exSession (i cid : String) : Session :=
  { id := i
    clientId := cid
    date := "2026-01-01"
    duration := 30
    goals := ["g1"]
    trials := []
    createdAt := "t0" }

/-- A store fixture: client `x` with one goal and one session, plus an
unrelated client `y` with one goal and one session. -/
def exStore : StoreState :=
  { clients := [exClient "x", exClient "y"]
    goals := [exGoal "g1" "x" GoalStatus.active 80 0, exGoal "g2" "y" GoalStatus.active 80 0]
    sessions := [exSession "s1" "x", exSession "s2" "y"]
    settings := DEFAULT_SETTINGS }

/-- A facade fixture whose mirror mirrors `exStore` exactly. -/
def exApp : AppState := { store := exStore, mirror := exStore }

/-- A fresh client to add to `exApp` (fixture). -/
def cNewW : Client := exClient "z"

/-- An update of client `x` stamped at time `t1` (fixture). -/
def cUpdW : Client := { exClient "x" with updatedAt := "t1" }

/-- A fresh goal to add to `exApp` (fixture). -/
def gNewW : Goal := exGoal "g3" "x" GoalStatus.active 80 0

/-- An update of goal `g1` stamped at time `t1` (fixture). -/
def gUpdW : Goal := { exGoal "g1" "x" GoalStatus.active 80 0 with updatedAt := "t1" }

/-- A fresh session to add to `exApp` (fixture). -/
def xNewW : Session := exSession "s3" "x"

/-- An update of session `s1` (fixture). -/
def xUpdW : Session := exSession "s1" "x"

/-- Goals mirror for the recording-flow witness (fixture). -/
def w9goals : List Goal := [exGoal "g1" "x" GoalStatus.active 80 0]

/-- A tiny recording flow: start the session, record one correct trial on
goal `g1` (fixture). -/
def w9events : List RecEvent :=
  [RecEvent.start,
   RecEvent.record w9goals "" CueLevel.independent Response.correct "tr1" "ts1"]

/-- The session `handleEndSession` builds from that flow (fixture). -/
def w9sess : Session :=
  { id := "s9"
    clientId := "x"
    date := "d1"
    duration := 30
    notes := none
    goals := ["g1"]
    trials := [{ id := "tr1", sessionId := "s9", goalId := "g1", prompt := "Trial 1",
                 response := Response.correct, cueLevel := CueLevel.independent,
                 timestamp := "ts1" }]
    createdAt := "d1" }

/-! ## Helper lemmas -/

lemma jsRound_nonneg {q : ℚ} (hq : 0 ≤ q) : 0 ≤ jsRound q := by
  rw [jsRound, Int.le_floor]
  push_cast
  linarith

lemma jsRound_le_int {q : ℚ} {n : ℤ} (h : q ≤ (n : ℚ)) : jsRound q ≤ n := by
  have h1 : ⌊q + 1 / 2⌋ ≤ ⌊(n : ℚ) + 1 / 2⌋ := Int.floor_le_floor (by linarith)
  have h2 : ⌊(n : ℚ) + 1 / 2⌋ = n := by
    rw [add_comm, Int.floor_add_int, show ⌊(1 / 2 : ℚ)⌋ = 0 from by
      rw [Int.floor_eq_zero_iff]
      constructor <;> norm_num]
    ring
  rw [jsRound]
  omega

/-- The four response-count filters partition the trial list. -/
lemma response_counts_partition (trials : List Trial) :
    (trials.filter (fun t => t.response = Response.correct)).length
      + (trials.filter (fun t => t.response = Response.incorrect)).length
      + (trials.filter (fun t => t.response = Response.approximation)).length
      + (trials.filter (fun t => t.response = Response.no_response)).length
      = trials.length := by
  induction trials with
  | nil => rfl
  | cons t ts ih =>
    cases h : t.response <;> simp [List.filter_cons, h] <;> omega

lemma saveByKey_of_not_mem {α : Type} (key : α → String) (e repl : α) (l : List α)
    (h : ¬ key e ∈ l.map key) : saveByKey key e repl l = l ++ [e] := by
  induction l with
  | nil => rfl
  | cons x xs ih =>
    simp only [List.map_cons, List.mem_cons] at h
    push_neg at h
    simp only [saveByKey, if_neg (fun hx : key x = key e => h.1 hx.symm), List.cons_append,
      List.cons.injEq, true_and]
    exact ih h.2

lemma saveByKey_key_mem {α : Type} (key : α → String) (e repl : α) (l : List α)
    (hkey : key repl = key e) :
    ∀ i ∈ (saveByKey key e repl l).map key, i = key e ∨ i ∈ l.map key := by
  induction l with
  | nil =>
    intro i hi
    simp only [saveByKey, List.map_cons, List.map_nil, List.mem_singleton] at hi
    exact Or.inl hi
  | cons x xs ih =>
    intro i hi
    by_cases hx : key x = key e
    · simp only [saveByKey, if_pos hx, List.map_cons, List.mem_cons] at hi
      rcases hi with hi | hi
      · exact Or.inl (hi.trans hkey)
      · exact Or.inr (by simp [hi])
    · simp only [saveByKey, if_neg hx, List.map_cons, List.mem_cons] at hi
      rcases hi with hi | hi
      · exact Or.inr (by simp [hi])
      · rcases ih i hi with hi | hi
        · exact Or.inl hi
        · exact Or.inr (by simp [hi])

lemma saveByKey_nodup {α : Type} (key : α → String) (e repl : α) (l : List α)
    (hkey : key repl = key e) (h : (l.map key).Nodup) :
    ((saveByKey key e repl l).map key).Nodup := by
  induction l with
  | nil => simp [saveByKey]
  | cons x xs ih =>
    simp only [List.map_cons, List.nodup_cons] at h
    by_cases hx : key x = key e
    · simp only [saveByKey, if_pos hx, List.map_cons, List.nodup_cons, hkey]
      exact ⟨hx ▸ h.1, h.2⟩
    · simp only [saveByKey, if_neg hx, List.map_cons, List.nodup_cons]
      refine ⟨fun hmem => ?_, ih h.2⟩
      rcases saveByKey_key_mem key e repl xs hkey _ hmem with hc | hc
      · exact hx hc
      · exact h.1 hc

lemma saveByKey_countP {α : Type} (key : α → String) (e repl : α) (l : List α)
    (hkey : key repl = key e) (h : (l.map key).Nodup) :
    (saveByKey key e repl l).countP (fun x => key x = key e) = 1 := by
  induction l with
  | nil => simp [saveByKey]
  | cons x xs ih =>
    simp only [List.map_cons, List.nodup_cons] at h
    by_cases hx : key x = key e
    · simp only [saveByKey, if_pos hx]
      rw [List.countP_cons_of_pos _ _ (by simp [hkey])]
      have hz : xs.countP (fun x => key x = key e) = 0 := by
        rw [List.countP_eq_zero]
        intro y hy
        simp only [decide_eq_true_eq]
        intro hy2
        refine h.1 ?_
        rw [hx, ← hy2]
        exact List.mem_map_of_mem key hy
      omega
    · simp only [saveByKey, if_neg hx]
      rw [List.countP_cons_of_neg _ _ (by simp [hx])]
      exact ih h.2

lemma saveByKey_filter_ne {α : Type} (key : α → String) (e repl : α) (l : List α)
    (hkey : key repl = key e) :
    (saveByKey key e repl l).filter (fun x => ¬ key x = key e)
      = l.filter (fun x => ¬ key x = key e) := by
  induction l with
  | nil => simp [saveByKey]
  | cons x xs ih =>
    by_cases hx : key x = key e
    · simp [saveByKey, if_pos hx, List.filter_cons, hx, hkey]
    · simp only [saveByKey, if_neg hx]
      simp [List.filter_cons, hx]
      simpa using ih

lemma saveByKey_length_of_mem {α : Type} (key : α → String) (e repl : α) (l : List α)
    (h : key e ∈ l.map key) : (saveByKey key e repl l).length = l.length := by
  induction l with
  | nil => simp at h
  | cons x xs ih =>
    by_cases hx : key x = key e
    · simp [saveByKey, if_pos hx]
    · simp only [List.map_cons, List.mem_cons] at h
      rcases h with h | h
      · exact absurd h.symm hx
      · simp [saveByKey, if_neg hx, ih h]

lemma map_replace_of_not_mem {α : Type} (key : α → String) (e repl : α) (l : List α)
    (h : ¬ key e ∈ l.map key) :
    l.map (fun x => if key x = key e then repl else x) = l := by
  induction l with
  | nil => rfl
  | cons x xs ih =>
    simp only [List.map_cons, List.mem_cons] at h
    push_neg at h
    simp only [List.map_cons, if_neg (fun hx : key x = key e => h.1 hx.symm),
      List.cons.injEq, true_and]
    exact ih h.2

lemma saveByKey_eq_map_replace {α : Type} (key : α → String) (e repl : α) (l : List α)
    (hmem : key e ∈ l.map key) (h : (l.map key).Nodup) :
    saveByKey key e repl l = l.map (fun x => if key x = key e then repl else x) := by
  induction l with
  | nil => simp at hmem
  | cons x xs ih =>
    simp only [List.map_cons, List.nodup_cons] at h
    by_cases hx : key x = key e
    · simp only [saveByKey, if_pos hx, List.map_cons, List.cons.injEq, true_and]
      rw [map_replace_of_not_mem key e repl xs (fun hc => h.1 (hx ▸ hc))]
    · simp only [List.map_cons, List.mem_cons] at hmem
      rcases hmem with hmem | hmem
      · exact absurd hmem.symm hx
      · simp only [saveByKey, if_neg hx, List.map_cons, List.cons.injEq, true_and]
        exact ih hmem h.2

/-- A goal returned by `currentGoal` has an id drawn from the selected
ids (by the `find?` predicate and the index bound). -/
lemma currentGoal_id_mem (env : List Goal) (s : RecState) (g : Goal)
    (h : currentGoal env s = some g) : g.id ∈ s.selectedGoalIds := by
  unfold currentGoal at h
  cases hg : s.selectedGoalIds.get? s.currentGoalIndex with
  | none => rw [hg] at h; cases h
  | some gid =>
    rw [hg] at h
    have hid : g.id = gid := by simpa using List.find?_some h
    rw [hid]
    exact List.get?_mem hg

/-- One step of the recording flow preserves the flow invariant: before the
session starts no trials exist, and every recorded trial's goal id is among
the selected goal ids. -/
lemma recStep_invariant (s : RecState) (ev : RecEvent)
    (h1 : s.sessionStarted = false → s.trials = [])
    (h2 : ∀ t ∈ s.trials, t.goalId ∈ s.selectedGoalIds) :
    ((recStep s ev).sessionStarted = false → (recStep s ev).trials = []) ∧
    (∀ t ∈ (recStep s ev).trials, t.goalId ∈ (recStep s ev).selectedGoalIds) := by
  cases ev with
  | toggle goalId =>
    cases hs : s.sessionStarted with
    | true =>
      have heq : recStep s (RecEvent.toggle goalId) = s := by simp [recStep, hs]
      rw [heq]
      exact ⟨h1, h2⟩
    | false =>
      have ht : (recStep s (RecEvent.toggle goalId)).trials = s.trials := by
        simp [recStep, hs]
      rw [ht, h1 hs]
      exact ⟨fun _ => rfl, fun t htr => absurd htr (List.not_mem_nil t)⟩
  | start =>
    by_cases he : s.selectedGoalIds.isEmpty
    · have heq : recStep s RecEvent.start = s := by simp [recStep, he]
      rw [heq]
      exact ⟨h1, h2⟩
    · have heq : recStep s RecEvent.start = { s with sessionStarted := true } := by
        simp [recStep, he]
      rw [heq]
      exact ⟨fun hc => by simp at hc, h2⟩
  | record env promptText cue resp tid ts =>
    cases hs : s.sessionStarted with
    | false =>
      have heq : recStep s (RecEvent.record env promptText cue resp tid ts) = s := by
        simp [recStep, hs]
      rw [heq]
      exact ⟨h1, h2⟩
    | true =>
      cases hcg : currentGoal env s with
      | none =>
        have heq : recStep s (RecEvent.record env promptText cue resp tid ts) = s := by
          simp [recStep, hs, hcg]
        rw [heq]
        exact ⟨h1, h2⟩
      | some g =>
        have heq : recStep s (RecEvent.record env promptText cue resp tid ts)
            = { s with trials := s.trials ++
                [{ id := tid
                   sessionId := ""
                   goalId := g.id
                   prompt :=
                     if jsTrim promptText = "" then
                       "Trial " ++ toString
                         ((s.trials.filter (fun t => t.goalId = g.id)).length + 1)
                     else jsTrim promptText
                   response := resp
                   cueLevel := cue
                   timestamp := ts }] } := by
          simp [recStep, hs, hcg]
        rw [heq]
        refine ⟨fun hc => by simp [hs] at hc, fun t ht => ?_⟩
        rcases List.mem_append.1 ht with ht | ht
        · exact h2 t ht
        · rcases List.mem_singleton.1 ht with rfl
          exact currentGoal_id_mem env s g hcg
  | deleteLast env =>
    cases hs : s.sessionStarted with
    | false =>
      have heq : recStep s (RecEvent.deleteLast env) = s := by simp [recStep, hs]
      rw [heq]
      exact ⟨h1, h2⟩
    | true =>
      cases hcg : currentGoal env s with
      | none =>
        have heq : recStep s (RecEvent.deleteLast env) = s := by
          simp [recStep, hs, hcg]
        rw [heq]
        exact ⟨h1, h2⟩
      | some g =>
        cases hl : (s.trials.filter (fun t => t.goalId = g.id)).getLast? with
        | none =>
          have heq : recStep s (RecEvent.deleteLast env) = s := by
            simp only [recStep, hs, Bool.not_true, reduceIte, hcg, hl]
            simp
          rw [heq]
          exact ⟨h1, h2⟩
        | some lastTrial =>
          have heq : recStep s (RecEvent.deleteLast env)
              = { s with trials := s.trials.filter (fun t => ¬ t.id = lastTrial.id) } := by
            simp only [recStep, hs, Bool.not_true, reduceIte, hcg, hl]
            simp [hs]
          rw [heq]
          refine ⟨fun hc => by simp [hs] at hc, fun t ht => ?_⟩
          exact h2 t (List.mem_of_mem_filter ht)
  | nextGoal =>
    by_cases hlt : s.currentGoalIndex < s.selectedGoalIds.length - 1
    · have heq : recStep s RecEvent.nextGoal
          = { s with currentGoalIndex := s.currentGoalIndex + 1 } := by
        simp [recStep, hlt]
      rw [heq]
      exact ⟨fun hc => h1 hc, h2⟩
    · have heq : recStep s RecEvent.nextGoal = s := by simp [recStep, hlt]
      rw [heq]
      exact ⟨h1, h2⟩
  | prevGoal =>
    by_cases hlt : 0 < s.currentGoalIndex
    · have heq : recStep s RecEvent.prevGoal
          = { s with currentGoalIndex := s.currentGoalIndex - 1 } := by
        simp [recStep, hlt]
      rw [heq]
      exact ⟨fun hc => h1 hc, h2⟩
    · have heq : recStep s RecEvent.prevGoal = s := by simp [recStep, hlt]
      rw [heq]
      exact ⟨h1, h2⟩

/-- Running any event sequence preserves the flow invariant. -/
lemma recRun_invariant (events : List RecEvent) (s : RecState)
    (h1 : s.sessionStarted = false → s.trials = [])
    (h2 : ∀ t ∈ s.trials, t.goalId ∈ s.selectedGoalIds) :
    ((recRun s events).sessionStarted = false → (recRun s events).trials = []) ∧
    (∀ t ∈ (recRun s events).trials, t.goalId ∈ (recRun s events).selectedGoalIds) := by
  induction events generalizing s with
  | nil => exact ⟨h1, h2⟩
  | cons ev evs ih =>
    have h := recStep_invariant s ev h1 h2
    exact ih (recStep s ev) h.1 h.2

/-- Restamping a client's `updatedAt` with its current value is the
identity. -/
lemma client_restamp (c : Client) : ({ c with updatedAt := c.updatedAt } : Client) = c := rfl

/-- Restamping a goal's `updatedAt` with its current value is the
identity. -/
lemma goal_restamp (g : Goal) : ({ g with updatedAt := g.updatedAt } : Goal) = g := rfl

/-- C1: `calculateSessionStats` returns `totalTrials` equal to the length of
the input, the four response counts are the counts of trials with the
corresponding `response` value and sum to `totalTrials`, `accuracy` is
`round(100 × correctTrials / totalTrials)` for a nonempty input and `0` for
the empty one; on the empty list all fields are `0`, and on responses
`[correct, correct, incorrect]` the result is `totalTrials = 3`,
`correctTrials = 2`, `incorrectTrials = 1`, `accuracy = 67`. -/
theorem C1_calculateSessionStats_correct (trials : List Trial) :
    (calculateSessionStats trials).totalTrials = trials.length ∧
    (calculateSessionStats trials).correctTrials
      = trials.countP (fun t => t.response = Response.correct) ∧
    (calculateSessionStats trials).incorrectTrials
      = trials.countP (fun t => t.response = Response.incorrect) ∧
    (calculateSessionStats trials).approximationTrials
      = trials.countP (fun t => t.response = Response.approximation) ∧
    (calculateSessionStats trials).noResponseTrials
      = trials.countP (fun t => t.response = Response.no_response) ∧
    (calculateSessionStats trials).correctTrials
        + (calculateSessionStats trials).incorrectTrials
        + (calculateSessionStats trials).approximationTrials
        + (calculateSessionStats trials).noResponseTrials
      = (calculateSessionStats trials).totalTrials ∧
    (calculateSessionStats trials).accuracy
      = (if 0 < (calculateSessionStats trials).totalTrials then
          jsRound (100 * ((calculateSessionStats trials).correctTrials : ℚ)
            / ((calculateSessionStats trials).totalTrials : ℚ))
        else 0) ∧
    calculateSessionStats [] =
      { totalTrials := 0, correctTrials := 0, incorrectTrials := 0,
        approximationTrials := 0, noResponseTrials := 0, accuracy := 0 } ∧
    calculateSessionStats exampleTrials =
      { totalTrials := 3, correctTrials := 2, incorrectTrials := 1,
        approximationTrials := 0, noResponseTrials := 0, accuracy := 67 } := by
  refine ⟨rfl, ?_, ?_, ?_, ?_, ?_, ?_, rfl, ?_⟩
  · simp [calculateSessionStats, List.countP_eq_length_filter]
  · simp [calculateSessionStats, List.countP_eq_length_filter]
  · simp [calculateSessionStats, List.countP_eq_length_filter]
  · simp [calculateSessionStats, List.countP_eq_length_filter]
  · simpa [calculateSessionStats] using response_counts_partition trials
  · by_cases h : 0 < trials.length
    · simp only [calculateSessionStats, gt_iff_lt, h, if_true]
      congr 1
      ring
    · simp [calculateSessionStats, h]
  · have h : calculateSessionStats exampleTrials =
        { totalTrials := 3, correctTrials := 2, incorrectTrials := 1,
          approximationTrials := 0, noResponseTrials := 0,
          accuracy := jsRound ((2 : ℚ) / (3 : ℚ) * 100) } := rfl
    rw [h]
    simp only [SessionStats.mk.injEq, true_and]
    rw [jsRound, Int.floor_eq_iff]
    norm_num

/-- C10: the accuracy returned by `calculateSessionStats` is an integer in
`[0, 100]`, each response count is at most `totalTrials`, and the
goal-accuracy update `round((currentAccuracy + accuracy) / 2)` maps a
`currentAccuracy` in `[0, 100]` back into `[0, 100]`. -/
theorem C10_accuracy_in_range (trials : List Trial) (cur : ℤ)
    (h0 : 0 ≤ cur) (h1 : cur ≤ 100) :
    (0 ≤ (calculateSessionStats trials).accuracy ∧
      (calculateSessionStats trials).accuracy ≤ 100) ∧
    ((calculateSessionStats trials).correctTrials
        ≤ (calculateSessionStats trials).totalTrials ∧
      (calculateSessionStats trials).incorrectTrials
        ≤ (calculateSessionStats trials).totalTrials ∧
      (calculateSessionStats trials).approximationTrials
        ≤ (calculateSessionStats trials).totalTrials ∧
      (calculateSessionStats trials).noResponseTrials
        ≤ (calculateSessionStats trials).totalTrials) ∧
    (0 ≤ jsRound (((cur : ℚ) + ((calculateSessionStats trials).accuracy : ℚ)) / 2) ∧
      jsRound (((cur : ℚ) + ((calculateSessionStats trials).accuracy : ℚ)) / 2) ≤ 100) := by
  have hacc : 0 ≤ (calculateSessionStats trials).accuracy ∧
      (calculateSessionStats trials).accuracy ≤ 100 := by
    by_cases h : 0 < trials.length
    · simp only [calculateSessionStats, gt_iff_lt, h, if_true]
      have hle : ((trials.filter (fun t => t.response = Response.correct)).length : ℚ)
          ≤ (trials.length : ℚ) := by
        exact_mod_cast List.length_filter_le _ trials
      have hpos : (0 : ℚ) < (trials.length : ℚ) := by exact_mod_cast h
      constructor
      · exact jsRound_nonneg (by positivity)
      · refine jsRound_le_int ?_
        push_cast
        rw [div_mul_eq_mul_div, div_le_iff₀ hpos]
        nlinarith
    · simp [calculateSessionStats, h]
  refine ⟨hacc, ⟨?_, ?_, ?_, ?_⟩, ?_, ?_⟩
  · simpa [calculateSessionStats] using List.length_filter_le _ trials
  · simpa [calculateSessionStats] using List.length_filter_le _ trials
  · simpa [calculateSessionStats] using List.length_filter_le _ trials
  · simpa [calculateSessionStats] using List.length_filter_le _ trials
  · refine jsRound_nonneg ?_
    have := hacc.1
    have hc : (0 : ℚ) ≤ ((calculateSessionStats trials).accuracy : ℚ) := by exact_mod_cast this
    have hcur : (0 : ℚ) ≤ (cur : ℚ) := by exact_mod_cast h0
    positivity
  · refine jsRound_le_int ?_
    have ha := hacc.2
    have hc : ((calculateSessionStats trials).accuracy : ℚ) ≤ 100 := by exact_mod_cast ha
    have hcur : (cur : ℚ) ≤ 100 := by exact_mod_cast h1
    push_cast
    linarith

/-- Witness for C10 at `trials = exampleTrials`, `cur = 50`. -/
theorem C10_witness :
    0 ≤ (50 : ℤ) ∧ (50 : ℤ) ≤ 100 ∧
    ((0 ≤ (calculateSessionStats exampleTrials).accuracy ∧
        (calculateSessionStats exampleTrials).accuracy ≤ 100) ∧
      ((calculateSessionStats exampleTrials).correctTrials
          ≤ (calculateSessionStats exampleTrials).totalTrials ∧
        (calculateSessionStats exampleTrials).incorrectTrials
          ≤ (calculateSessionStats exampleTrials).totalTrials ∧
        (calculateSessionStats exampleTrials).approximationTrials
          ≤ (calculateSessionStats exampleTrials).totalTrials ∧
        (calculateSessionStats exampleTrials).noResponseTrials
          ≤ (calculateSessionStats exampleTrials).totalTrials) ∧
      (0 ≤ jsRound ((((50 : ℤ) : ℚ)
          + ((calculateSessionStats exampleTrials).accuracy : ℚ)) / 2) ∧
        jsRound ((((50 : ℤ) : ℚ)
          + ((calculateSessionStats exampleTrials).accuracy : ℚ)) / 2) ≤ 100)) :=
  ⟨by norm_num, by norm_num, C10_accuracy_in_range exampleTrials 50 (by norm_num) (by norm_num)⟩

/-- C3: after `ClientStorage.delete(X)` completes (all three underlying
writes succeeding), the clients collection holds exactly the previous clients
whose id differs from `X`, the goals collection exactly the previous goals
whose `clientId` differs from `X`, and the sessions collection exactly the
previous sessions whose `clientId` differs from `X` — in particular no record
keyed to `X` survives, and every other record is preserved unchanged (and in
order); the settings document is untouched. -/
theorem C3_clientDelete_cascades (st : StoreState) (X : String) :
    (clientDelete X true true true st).2.clients
        = st.clients.filter (fun c => ¬ c.id = X) ∧
    (clientDelete X true true true st).2.goals
        = st.goals.filter (fun g => ¬ g.clientId = X) ∧
    (clientDelete X true true true st).2.sessions
        = st.sessions.filter (fun s => ¬ s.clientId = X) ∧
    (clientDelete X true true true st).2.settings = st.settings ∧
    (∀ c, c ∈ (clientDelete X true true true st).2.clients ↔
        c ∈ st.clients ∧ ¬ c.id = X) ∧
    (∀ g, g ∈ (clientDelete X true true true st).2.goals ↔
        g ∈ st.goals ∧ ¬ g.clientId = X) ∧
    (∀ s, s ∈ (clientDelete X true true true st).2.sessions ↔
        s ∈ st.sessions ∧ ¬ s.clientId = X) := by
  refine ⟨rfl, rfl, rfl, rfl, ?_, ?_, ?_⟩ <;>
    · intro a
      simp [clientDelete, goalDeleteByClientId, sessionDeleteByClientId,
        setItemClients, setItemGoals, setItemSessions, List.mem_filter]

/-- C4 as stated fails: `ClientStorage.delete` discards the success flags of
the two cascade writes.  Concretely, on the fixture store, deleting client
`x` while the goals-cascade write fails (`okG = false`) and the other two
writes succeed returns `true` even though an underlying write failed, and
goal `g1` (owned by `x`) survives in the goals collection. -/
theorem C4_counterexample :
    (clientDelete "x" false true true exStore).1 = true ∧
    exGoal "g1" "x" GoalStatus.active 80 0 ∈ (clientDelete "x" false true true exStore).2.goals := by
  constructor
  · rfl
  · simp [clientDelete, goalDeleteByClientId, sessionDeleteByClientId,
      setItemClients, setItemGoals, setItemSessions, exStore]

/-- C4 amended: `save` and the single-collection `delete` operations return
exactly the success flag of the one write they perform and never throw (the
`try/catch` in `setItem` turns any storage exception into a `false` return);
`ClientStorage.delete`, however, returns only the success flag of its final
clients write, ignoring the outcomes of the goals and sessions cascade
writes; and any operation whose write fails leaves the store unchanged
(for `clientDelete`, when all three of its writes fail). -/
theorem C4_write_failure_flags (st : StoreState) (c : Client) (g : Goal) (x : Session)
    (v : AppSettings) (id now : String) (ok okG okS okC : Bool) :
    (clientSave c now ok st).1 = ok ∧
    (goalSave g now ok st).1 = ok ∧
    (sessionSave x ok st).1 = ok ∧
    (settingsSave v ok st).1 = ok ∧
    (goalDelete id ok st).1 = ok ∧
    (sessionDelete id ok st).1 = ok ∧
    (goalDeleteByClientId id ok st).1 = ok ∧
    (sessionDeleteByClientId id ok st).1 = ok ∧
    (clientDelete id okG okS okC st).1 = okC ∧
    (clientSave c now false st).2 = st ∧
    (goalSave g now false st).2 = st ∧
    (sessionSave x false st).2 = st ∧
    (settingsSave v false st).2 = st ∧
    (goalDelete id false st).2 = st ∧
    (sessionDelete id false st).2 = st ∧
    (clientDelete id false false false st).2 = st := by
  cases ok <;> cases okG <;> cases okS <;> cases okC <;>
    simp [clientSave, goalSave, sessionSave, settingsSave, goalDelete, sessionDelete,
      goalDeleteByClientId, sessionDeleteByClientId, clientDelete,
      setItemClients, setItemGoals, setItemSessions, setItemSettings]

/-- C5: importing the document exported from a store back into that same
store succeeds and leaves all four collections exactly equal to their
pre-export contents. -/
theorem C5_export_import_roundtrip (st : StoreState) (now : String) :
    importData (some (exportAllData now st)) true true true true st = (true, st) := rfl

/-- C6: `importData` returns `false` exactly on an unparseable document
(modelled as `doc = none`); on a parseable document it returns `true`, each
of the four keys present overwrites its collection wholesale, and each key
absent leaves its collection untouched — in particular a backup missing the
`goals` key leaves the goals collection unchanged while the other three
collections are overwritten. -/
theorem C6_importData_key_semantics (st : StoreState) (d : BackupDoc)
    (okC okG okS okSet : Bool) (cs : List Client) (ss : List Session) (v : AppSettings)
    (e : String) :
    importData none okC okG okS okSet st = (false, st) ∧
    (importData (some d) okC okG okS okSet st).1 = true ∧
    (∀ doc : Option BackupDoc,
      ((importData doc okC okG okS okSet st).1 = false ↔ doc = none)) ∧
    (importData (some d) true true true true st).2
      = { clients := d.clients.getD st.clients
          goals := d.goals.getD st.goals
          sessions := d.sessions.getD st.sessions
          settings := d.settings.getD st.settings } ∧
    (importData
        (some { exportDate := e, clients := some cs, goals := none,
                sessions := some ss, settings := some v })
        true true true true st).2
      = { clients := cs, goals := st.goals, sessions := ss, settings := v } := by
  refine ⟨rfl, ?_, ?_, ?_, ?_⟩
  · rcases d with ⟨de, dc, dg, ds, dset⟩
    cases dc <;> cases dg <;> cases ds <;> cases dset <;> rfl
  · intro doc
    cases doc with
    | none => simp [importData]
    | some d2 =>
      rcases d2 with ⟨de, dc, dg, ds, dset⟩
      cases dc <;> cases dg <;> cases ds <;> cases dset <;>
        simp [importData, setItemClients, setItemGoals, setItemSessions, setItemSettings]
  · rcases d with ⟨de, dc, dg, ds, dset⟩
    cases dc <;> cases dg <;> cases ds <;> cases dset <;> rfl
  · rfl

/-- C7: on a collection with pairwise-distinct ids, `save` preserves
id-distinctness and is idempotent on id: after one save there is exactly one
record with the saved id, a second save keeps it at exactly one, records with
other ids are untouched, a save of a fresh id appends the entity as passed,
and a save of an existing id keeps the collection's length and replaces the
matching record in place at its existing position with the entity carrying
the freshly stamped `updatedAt` (all other positions unchanged, stated as a
pointwise map).  Stated for the client collection and the goal
collection. -/
theorem C7_save_idempotent_on_id (l : List Client) (lg : List Goal) (c : Client) (g : Goal)
    (n1 n2 : String)
    (hc : (l.map Client.id).Nodup) (hg : (lg.map Goal.id).Nodup) :
    ((saveClientList c n1 l).map Client.id).Nodup ∧
    (saveClientList c n1 l).countP (fun x => x.id = c.id) = 1 ∧
    (saveClientList c n2 (saveClientList c n1 l)).countP (fun x => x.id = c.id) = 1 ∧
    (saveClientList c n1 l).filter (fun x => ¬ x.id = c.id)
      = l.filter (fun x => ¬ x.id = c.id) ∧
    (¬ c.id ∈ l.map Client.id → saveClientList c n1 l = l ++ [c]) ∧
    (c.id ∈ l.map Client.id → (saveClientList c n1 l).length = l.length) ∧
    (c.id ∈ l.map Client.id →
      saveClientList c n1 l
        = l.map (fun x => if x.id = c.id then { c with updatedAt := n1 } else x)) ∧
    ((saveGoalList g n1 lg).map Goal.id).Nodup ∧
    (saveGoalList g n1 lg).countP (fun x => x.id = g.id) = 1 ∧
    (saveGoalList g n2 (saveGoalList g n1 lg)).countP (fun x => x.id = g.id) = 1 ∧
    (saveGoalList g n1 lg).filter (fun x => ¬ x.id = g.id)
      = lg.filter (fun x => ¬ x.id = g.id) ∧
    (¬ g.id ∈ lg.map Goal.id → saveGoalList g n1 lg = lg ++ [g]) ∧
    (g.id ∈ lg.map Goal.id → (saveGoalList g n1 lg).length = lg.length) ∧
    (g.id ∈ lg.map Goal.id →
      saveGoalList g n1 lg
        = lg.map (fun x => if x.id = g.id then { g with updatedAt := n1 } else x)) := by
  have hc1 : ((saveClientList c n1 l).map Client.id).Nodup :=
    saveByKey_nodup Client.id c _ l rfl hc
  have hg1 : ((saveGoalList g n1 lg).map Goal.id).Nodup :=
    saveByKey_nodup Goal.id g _ lg rfl hg
  refine ⟨hc1, ?_, ?_, ?_, ?_, ?_, ?_, hg1, ?_, ?_, ?_, ?_, ?_, ?_⟩
  · exact saveByKey_countP Client.id c _ l rfl hc
  · exact saveByKey_countP Client.id c _ _ rfl hc1
  · exact saveByKey_filter_ne Client.id c _ l rfl
  · exact fun h => saveByKey_of_not_mem Client.id c _ l h
  · exact fun h => saveByKey_length_of_mem Client.id c _ l h
  · exact fun h => saveByKey_eq_map_replace Client.id c _ l h hc
  · exact saveByKey_countP Goal.id g _ lg rfl hg
  · exact saveByKey_countP Goal.id g _ _ rfl hg1
  · exact saveByKey_filter_ne Goal.id g _ lg rfl
  · exact fun h => saveByKey_of_not_mem Goal.id g _ lg h
  · exact fun h => saveByKey_length_of_mem Goal.id g _ lg h
  · exact fun h => saveByKey_eq_map_replace Goal.id g _ lg h hg

/-- Witness for C7 on the fixture collections (which contain the saved ids,
so the in-place replacement branch is the live one). -/
theorem C7_witness :
    (exStore.clients.map Client.id).Nodup ∧
    (exStore.goals.map Goal.id).Nodup ∧
    (((saveClientList (exClient "x") "t1" exStore.clients).map Client.id).Nodup ∧
      (saveClientList (exClient "x") "t1" exStore.clients).countP
        (fun x => x.id = (exClient "x").id) = 1 ∧
      (saveClientList (exClient "x") "t2"
          (saveClientList (exClient "x") "t1" exStore.clients)).countP
        (fun x => x.id = (exClient "x").id) = 1 ∧
      (saveClientList (exClient "x") "t1" exStore.clients).filter
          (fun x => ¬ x.id = (exClient "x").id)
        = exStore.clients.filter (fun x => ¬ x.id = (exClient "x").id) ∧
      (¬ (exClient "x").id ∈ exStore.clients.map Client.id →
        saveClientList (exClient "x") "t1" exStore.clients
          = exStore.clients ++ [exClient "x"]) ∧
      ((exClient "x").id ∈ exStore.clients.map Client.id →
        (saveClientList (exClient "x") "t1" exStore.clients).length
          = exStore.clients.length) ∧
      ((exClient "x").id ∈ exStore.clients.map Client.id →
        saveClientList (exClient "x") "t1" exStore.clients
          = exStore.clients.map (fun x => if x.id = (exClient "x").id then
              { exClient "x" with updatedAt := "t1" } else x)) ∧
      ((saveGoalList (exGoal "g1" "x" GoalStatus.active 80 0) "t1" exStore.goals).map
          Goal.id).Nodup ∧
      (saveGoalList (exGoal "g1" "x" GoalStatus.active 80 0) "t1" exStore.goals).countP
        (fun x => x.id = (exGoal "g1" "x" GoalStatus.active 80 0).id) = 1 ∧
      (saveGoalList (exGoal "g1" "x" GoalStatus.active 80 0) "t2"
          (saveGoalList (exGoal "g1" "x" GoalStatus.active 80 0) "t1" exStore.goals)).countP
        (fun x => x.id = (exGoal "g1" "x" GoalStatus.active 80 0).id) = 1 ∧
      (saveGoalList (exGoal "g1" "x" GoalStatus.active 80 0) "t1" exStore.goals).filter
          (fun x => ¬ x.id = (exGoal "g1" "x" GoalStatus.active 80 0).id)
        = exStore.goals.filter
            (fun x => ¬ x.id = (exGoal "g1" "x" GoalStatus.active 80 0).id) ∧
      (¬ (exGoal "g1" "x" GoalStatus.active 80 0).id ∈ exStore.goals.map Goal.id →
        saveGoalList (exGoal "g1" "x" GoalStatus.active 80 0) "t1" exStore.goals
          = exStore.goals ++ [exGoal "g1" "x" GoalStatus.active 80 0]) ∧
      ((exGoal "g1" "x" GoalStatus.active 80 0).id ∈ exStore.goals.map Goal.id →
        (saveGoalList (exGoal "g1" "x" GoalStatus.active 80 0) "t1" exStore.goals).length
          = exStore.goals.length) ∧
      ((exGoal "g1" "x" GoalStatus.active 80 0).id ∈ exStore.goals.map Goal.id →
        saveGoalList (exGoal "g1" "x" GoalStatus.active 80 0) "t1" exStore.goals
          = exStore.goals.map (fun x => if x.id = (exGoal "g1" "x" GoalStatus.active 80 0).id
              then { exGoal "g1" "x" GoalStatus.active 80 0 with updatedAt := "t1" }
              else x))) :=
  ⟨by decide, by decide,
    C7_save_idempotent_on_id exStore.clients exStore.goals (exClient "x")
      (exGoal "g1" "x" GoalStatus.active 80 0) "t1" "t2" (by decide) (by decide)⟩

/-- C2 as stated fails: the update sets status to achieved whenever the new
accuracy reaches the target, without checking that the goal is currently
active.  Concretely, a discontinued goal with `currentAccuracy = 100` and
`targetAccuracy = 50`, updated after a session with no trials for it
(session accuracy 0, so `newAccuracy = round((100 + 0) / 2) = 50 ≥ 50`), has
its status changed from discontinued to achieved, where the claim requires
it to stay discontinued. -/
theorem C2_counterexample :
    (exGoal "g1" "x" GoalStatus.discontinued 50 100).status = GoalStatus.discontinued ∧
    ¬ (exGoal "g1" "x" GoalStatus.discontinued 50 100).status = GoalStatus.active ∧
    (calculateAndUpdateGoalAccuracy (exGoal "g1" "x" GoalStatus.discontinued 50 100) [] "t1").status
      = GoalStatus.achieved := by
  refine ⟨rfl, by decide, ?_⟩
  have h : jsRound ((((exGoal "g1" "x" GoalStatus.discontinued 50 100).currentAccuracy : ℚ)
      + ((calculateSessionStats (([] : List Trial).filter
          (fun t => t.goalId = (exGoal "g1" "x" GoalStatus.discontinued 50 100).id))).accuracy : ℚ))
        / 2) = 50 := by
    rw [show ((((exGoal "g1" "x" GoalStatus.discontinued 50 100).currentAccuracy : ℚ)
        + ((calculateSessionStats (([] : List Trial).filter
            (fun t => t.goalId = (exGoal "g1" "x" GoalStatus.discontinued 50 100).id))).accuracy : ℚ))
          / 2) = (50 : ℚ) from by norm_num [exGoal, calculateSessionStats]]
    rw [jsRound, Int.floor_eq_iff]
    norm_num
  simp only [calculateAndUpdateGoalAccuracy, h]
  norm_num [exGoal]

/-- C2 amended: on session completion the update stores
`currentAccuracy = round((goal.currentAccuracy + a) / 2)` where `a` is the
session accuracy over this session's trials for the goal, and sets status to
achieved exactly when the new accuracy reaches `targetAccuracy` —
irrespective of the current status (so a discontinued goal reaching the
target is also marked achieved); when the new accuracy is below the target
the status is left unchanged, hence the final status is achieved iff the
target is reached or the goal was already achieved. -/
theorem C2_goal_accuracy_update (goal : Goal) (trials : List Trial) (now : String) :
    (calculateAndUpdateGoalAccuracy goal trials now).currentAccuracy
      = jsRound (((goal.currentAccuracy : ℚ)
          + ((calculateSessionStats (trials.filter
              (fun t => t.goalId = goal.id))).accuracy : ℚ)) / 2) ∧
    (calculateAndUpdateGoalAccuracy goal trials now).status
      = (if goal.targetAccuracy ≤ (calculateAndUpdateGoalAccuracy goal trials now).currentAccuracy
         then GoalStatus.achieved else goal.status) ∧
    ((calculateAndUpdateGoalAccuracy goal trials now).status = GoalStatus.achieved ↔
      (goal.targetAccuracy ≤ (calculateAndUpdateGoalAccuracy goal trials now).currentAccuracy
        ∨ goal.status = GoalStatus.achieved)) := by
  refine ⟨rfl, ?_, ?_⟩
  · by_cases h : goal.targetAccuracy
        ≤ jsRound (((goal.currentAccuracy : ℚ)
          + ((calculateSessionStats (trials.filter
              (fun t => t.goalId = goal.id))).accuracy : ℚ)) / 2)
    · simp only [calculateAndUpdateGoalAccuracy, ge_iff_le, h, if_true]
    · simp only [calculateAndUpdateGoalAccuracy, ge_iff_le, h, if_false]
  · by_cases h : goal.targetAccuracy
        ≤ jsRound (((goal.currentAccuracy : ℚ)
          + ((calculateSessionStats (trials.filter
              (fun t => t.goalId = goal.id))).accuracy : ℚ)) / 2)
    · simp only [calculateAndUpdateGoalAccuracy, ge_iff_le, h, if_true, true_iff, true_or]
    · simp only [calculateAndUpdateGoalAccuracy, ge_iff_le, h, if_false, false_or]

/-- C8 as stated fails: after a successful `updateClient`, the Record Store
holds the record with a freshly stamped `updatedAt` while the in-memory
mirror keeps the entity exactly as passed.  Concretely, updating client `x`
(whose `updatedAt` is `"t0"`) at time `"t1"` on a coherent facade succeeds
but leaves the mirror different from the store contents. -/
theorem C8_counterexample :
    exApp.mirror = exApp.store ∧
    (updateClient (exClient "x") "t1" true exApp).1 = true ∧
    ¬ (updateClient (exClient "x") "t1" true exApp).2.mirror
        = (updateClient (exClient "x") "t1" true exApp).2.store := by
  refine ⟨rfl, rfl, ?_⟩
  decide

/-- C8 amended: starting from a facade whose mirror equals the store
contents, every mutation that fails leaves the mirror unchanged and returns
`false`, and every mutation that succeeds restores mirror = store, under the
conditions the code actually requires: an added entity's id is fresh; an
updated entity's id is present and ids are unique, and for Client/Goal the
caller passes the entity already stamped with the update time (so the
store's restamping is the identity — as `NewSessionScreen` does); and for
`deleteClient` the two cascade writes succeed together with the clients
write. -/
theorem C8_mirror_coherence (s : AppState) (cNew cUpd : Client) (gNew gUpd : Goal)
    (xNew xUpd : Session) (v : AppSettings) (id now : String) (okG okS : Bool)
    (h : s.mirror = s.store)
    (hcNew : ¬ cNew.id ∈ s.store.clients.map Client.id)
    (hcNodup : (s.store.clients.map Client.id).Nodup)
    (hcMem : cUpd.id ∈ s.store.clients.map Client.id)
    (hcStamp : cUpd.updatedAt = now)
    (hgNew : ¬ gNew.id ∈ s.store.goals.map Goal.id)
    (hgNodup : (s.store.goals.map Goal.id).Nodup)
    (hgMem : gUpd.id ∈ s.store.goals.map Goal.id)
    (hgStamp : gUpd.updatedAt = now)
    (hxNew : ¬ xNew.id ∈ s.store.sessions.map Session.id)
    (hxNodup : (s.store.sessions.map Session.id).Nodup)
    (hxMem : xUpd.id ∈ s.store.sessions.map Session.id) :
    ((addClient cNew now true s).1 = true ∧
      (addClient cNew now true s).2.mirror = (addClient cNew now true s).2.store) ∧
    ((addClient cNew now false s).1 = false ∧
      (addClient cNew now false s).2.mirror = s.mirror) ∧
    ((updateClient cUpd now true s).1 = true ∧
      (updateClient cUpd now true s).2.mirror = (updateClient cUpd now true s).2.store) ∧
    ((updateClient cUpd now false s).1 = false ∧
      (updateClient cUpd now false s).2.mirror = s.mirror) ∧
    ((deleteClient id true true true s).1 = true ∧
      (deleteClient id true true true s).2.mirror = (deleteClient id true true true s).2.store) ∧
    ((deleteClient id okG okS false s).1 = false ∧
      (deleteClient id okG okS false s).2.mirror = s.mirror) ∧
    ((addGoal gNew now true s).1 = true ∧
      (addGoal gNew now true s).2.mirror = (addGoal gNew now true s).2.store) ∧
    ((addGoal gNew now false s).1 = false ∧
      (addGoal gNew now false s).2.mirror = s.mirror) ∧
    ((updateGoal gUpd now true s).1 = true ∧
      (updateGoal gUpd now true s).2.mirror = (updateGoal gUpd now true s).2.store) ∧
    ((updateGoal gUpd now false s).1 = false ∧
      (updateGoal gUpd now false s).2.mirror = s.mirror) ∧
    ((deleteGoal id true s).1 = true ∧
      (deleteGoal id true s).2.mirror = (deleteGoal id true s).2.store) ∧
    ((deleteGoal id false s).1 = false ∧ (deleteGoal id false s).2.mirror = s.mirror) ∧
    ((addSession xNew true s).1 = true ∧
      (addSession xNew true s).2.mirror = (addSession xNew true s).2.store) ∧
    ((addSession xNew false s).1 = false ∧ (addSession xNew false s).2.mirror = s.mirror) ∧
    ((updateSession xUpd true s).1 = true ∧
      (updateSession xUpd true s).2.mirror = (updateSession xUpd true s).2.store) ∧
    ((updateSession xUpd false s).1 = false ∧
      (updateSession xUpd false s).2.mirror = s.mirror) ∧
    ((deleteSession id true s).1 = true ∧
      (deleteSession id true s).2.mirror = (deleteSession id true s).2.store) ∧
    ((deleteSession id false s).1 = false ∧ (deleteSession id false s).2.mirror = s.mirror) ∧
    ((updateSettings v true s).1 = true ∧
      (updateSettings v true s).2.mirror = (updateSettings v true s).2.store) ∧
    ((updateSettings v false s).1 = false ∧ (updateSettings v false s).2.mirror = s.mirror) := by
  obtain ⟨store, mirror⟩ := s
  simp only at h hcNew hcNodup hcMem hgNew hgNodup hgMem hxNew hxNodup hxMem
  subst h
  refine ⟨⟨rfl, ?_⟩, ⟨rfl, rfl⟩, ⟨rfl, ?_⟩, ⟨rfl, rfl⟩, ⟨rfl, ?_⟩, ⟨rfl, rfl⟩,
    ⟨rfl, ?_⟩, ⟨rfl, rfl⟩, ⟨rfl, ?_⟩, ⟨rfl, rfl⟩, ⟨rfl, ?_⟩, ⟨rfl, rfl⟩,
    ⟨rfl, ?_⟩, ⟨rfl, rfl⟩, ⟨rfl, ?_⟩, ⟨rfl, rfl⟩, ⟨rfl, ?_⟩, ⟨rfl, rfl⟩,
    ⟨rfl, ?_⟩, ⟨rfl, rfl⟩⟩
  · simp only [addClient, clientSave, setItemClients, if_true]
    rw [saveClientList, saveByKey_of_not_mem Client.id cNew _ _ hcNew]
  · simp only [updateClient, clientSave, setItemClients, if_true]
    rw [saveClientList, saveByKey_eq_map_replace Client.id cUpd _ _ hcMem hcNodup]
    rw [show ({ cUpd with updatedAt := now } : Client) = cUpd from by rw [← hcStamp]]
  · rfl
  · simp only [addGoal, goalSave, setItemGoals, if_true]
    rw [saveGoalList, saveByKey_of_not_mem Goal.id gNew _ _ hgNew]
  · simp only [updateGoal, goalSave, setItemGoals, if_true]
    rw [saveGoalList, saveByKey_eq_map_replace Goal.id gUpd _ _ hgMem hgNodup]
    rw [show ({ gUpd with updatedAt := now } : Goal) = gUpd from by rw [← hgStamp]]
  · rfl
  · simp only [addSession, sessionSave, setItemSessions, if_true]
    rw [saveSessionList, saveByKey_of_not_mem Session.id xNew _ _ hxNew]
  · simp only [updateSession, sessionSave, setItemSessions, if_true]
    rw [saveSessionList, saveByKey_eq_map_replace Session.id xUpd _ _ hxMem hxNodup]
  · rfl
  · rfl

/-- Witness for C8 on the concrete facade `exApp` at time `t1`. -/
theorem C8_witness :
    (exApp.mirror = exApp.store ∧
      ¬ cNewW.id ∈ exApp.store.clients.map Client.id ∧
      (exApp.store.clients.map Client.id).Nodup ∧
      cUpdW.id ∈ exApp.store.clients.map Client.id ∧
      cUpdW.updatedAt = "t1" ∧
      ¬ gNewW.id ∈ exApp.store.goals.map Goal.id ∧
      (exApp.store.goals.map Goal.id).Nodup ∧
      gUpdW.id ∈ exApp.store.goals.map Goal.id ∧
      gUpdW.updatedAt = "t1" ∧
      ¬ xNewW.id ∈ exApp.store.sessions.map Session.id ∧
      (exApp.store.sessions.map Session.id).Nodup ∧
      xUpdW.id ∈ exApp.store.sessions.map Session.id) ∧
    (((addClient cNewW "t1" true exApp).1 = true ∧
      (addClient cNewW "t1" true exApp).2.mirror = (addClient cNewW "t1" true exApp).2.store) ∧
    ((addClient cNewW "t1" false exApp).1 = false ∧
      (addClient cNewW "t1" false exApp).2.mirror = exApp.mirror) ∧
    ((updateClient cUpdW "t1" true exApp).1 = true ∧
      (updateClient cUpdW "t1" true exApp).2.mirror
        = (updateClient cUpdW "t1" true exApp).2.store) ∧
    ((updateClient cUpdW "t1" false exApp).1 = false ∧
      (updateClient cUpdW "t1" false exApp).2.mirror = exApp.mirror) ∧
    ((deleteClient "y" true true true exApp).1 = true ∧
      (deleteClient "y" true true true exApp).2.mirror
        = (deleteClient "y" true true true exApp).2.store) ∧
    ((deleteClient "y" true true false exApp).1 = false ∧
      (deleteClient "y" true true false exApp).2.mirror = exApp.mirror) ∧
    ((addGoal gNewW "t1" true exApp).1 = true ∧
      (addGoal gNewW "t1" true exApp).2.mirror = (addGoal gNewW "t1" true exApp).2.store) ∧
    ((addGoal gNewW "t1" false exApp).1 = false ∧
      (addGoal gNewW "t1" false exApp).2.mirror = exApp.mirror) ∧
    ((updateGoal gUpdW "t1" true exApp).1 = true ∧
      (updateGoal gUpdW "t1" true exApp).2.mirror
        = (updateGoal gUpdW "t1" true exApp).2.store) ∧
    ((updateGoal gUpdW "t1" false exApp).1 = false ∧
      (updateGoal gUpdW "t1" false exApp).2.mirror = exApp.mirror) ∧
    ((deleteGoal "y" true exApp).1 = true ∧
      (deleteGoal "y" true exApp).2.mirror = (deleteGoal "y" true exApp).2.store) ∧
    ((deleteGoal "y" false exApp).1 = false ∧
      (deleteGoal "y" false exApp).2.mirror = exApp.mirror) ∧
    ((addSession xNewW true exApp).1 = true ∧
      (addSession xNewW true exApp).2.mirror = (addSession xNewW true exApp).2.store) ∧
    ((addSession xNewW false exApp).1 = false ∧
      (addSession xNewW false exApp).2.mirror = exApp.mirror) ∧
    ((updateSession xUpdW true exApp).1 = true ∧
      (updateSession xUpdW true exApp).2.mirror = (updateSession xUpdW true exApp).2.store) ∧
    ((updateSession xUpdW false exApp).1 = false ∧
      (updateSession xUpdW false exApp).2.mirror = exApp.mirror) ∧
    ((deleteSession "y" true exApp).1 = true ∧
      (deleteSession "y" true exApp).2.mirror = (deleteSession "y" true exApp).2.store) ∧
    ((deleteSession "y" false exApp).1 = false ∧
      (deleteSession "y" false exApp).2.mirror = exApp.mirror) ∧
    ((updateSettings DEFAULT_SETTINGS true exApp).1 = true ∧
      (updateSettings DEFAULT_SETTINGS true exApp).2.mirror
        = (updateSettings DEFAULT_SETTINGS true exApp).2.store) ∧
    ((updateSettings DEFAULT_SETTINGS false exApp).1 = false ∧
      (updateSettings DEFAULT_SETTINGS false exApp).2.mirror = exApp.mirror)) :=
  ⟨⟨rfl, by decide, by decide, by decide, rfl, by decide, by decide, by decide, rfl,
    by decide, by decide, by decide⟩,
    C8_mirror_coherence exApp cNewW cUpdW gNewW gUpdW xNewW xUpdW DEFAULT_SETTINGS "y" "t1"
      true true rfl (by decide) (by decide) (by decide) rfl (by decide) (by decide)
      (by decide) rfl (by decide) (by decide) (by decide)⟩

/-- C9: for any recording flow (any initial goal selection from the route
params, any sequence of UI events) whose end-session call actually saves a
session, every trial of the saved session carries the session's id as its
`sessionId` (the placeholder assigned at recording time is rewritten at save
time), and every trial's `goalId` is in the session's goals set. -/
theorem C9_saved_session_invariant (initialGoalIds : List String) (events : List RecEvent)
    (sid clientId date sessionNotes : String) (sess : Session)
    (h : handleEndSession (recRun (recInit initialGoalIds) events) sid clientId date
        sessionNotes = some sess) :
    (∀ t ∈ sess.trials, t.sessionId = sess.id) ∧
    (∀ t ∈ sess.trials, t.goalId ∈ sess.goals) := by
  have hinv := recRun_invariant events (recInit initialGoalIds) (fun _ => rfl)
    (fun t ht => absurd ht (List.not_mem_nil t))
  rw [handleEndSession] at h
  by_cases he : (recRun (recInit initialGoalIds) events).trials.isEmpty
  · rw [if_pos he] at h
    cases h
  · rw [if_neg he] at h
    have hsess := Option.some.inj h
    constructor
    · intro t ht
      rw [← hsess] at ht
      simp only [List.mem_map] at ht
      obtain ⟨u, _, hu⟩ := ht
      rw [← hu, ← hsess]
    · intro t ht
      rw [← hsess] at ht
      simp only [List.mem_map] at ht
      obtain ⟨u, humem, hu⟩ := ht
      have hgid : t.goalId = u.goalId := by rw [← hu]
      rw [hgid, ← hsess]
      exact hinv.2 u humem

/-- Witness for C9 on the concrete flow `w9events` over selection `[g1]`. -/
theorem C9_witness :
    handleEndSession (recRun (recInit ["g1"]) w9events) "s9" "x" "d1" "" = some w9sess ∧
    ((∀ t ∈ w9sess.trials, t.sessionId = w9sess.id) ∧
      (∀ t ∈ w9sess.trials, t.goalId ∈ w9sess.goals)) :=
  ⟨by decide, C9_saved_session_invariant ["g1"] w9events "s9" "x" "d1" "" w9sess (by decide)⟩

end SpeechApp
